import Mathlib

/-!
Shallow embedding of the hapi mock server's user routes
(`routes/users.js` together with the global validation `failAction`
of `server.js`): the in-memory lowdb `users` collection, the `uuid`
counter, the Joi payload schema `userPostRequestSchema`, and the
three route handlers (GET /user, GET /user/{id}, POST /user).
-/

set_option autoImplicit false

/-- A user record as stored in the lowdb `users` array.  Records
created by POST /user may leave `last_name` and `city` undefined
(the JS object then carries `undefined`, which is dropped on JSON
serialization), so every payload-supplied field is an
`Option String`; seed records have every field present. -/
structure User where
  id : Nat
  first_name : Option String
  last_name : Option String
  city : Option String
  country : Option String
deriving DecidableEq

/-- The mutable module state of `routes/users.js`: the lowdb
`users` collection and the module-level `uuid` counter. -/
structure Store where
  users : List User
  uuid : Nat
deriving DecidableEq

/-- `db.defaults({ users: initUserCollection }).write()` followed by
`let uuid = initUserCollection.length + 1`. -/
def seedStore (initUserCollection : List User) : Store :=
  { users := initUserCollection, uuid := initUserCollection.length + 1 }

/-- A JSON object sent to POST /user, restricted to string-valued
fields (the properties under study only involve string values).
The four schema keys are tracked individually; `extra` lists the
names of any other keys present in the object. -/
structure Payload where
  first_name : Option String
  last_name : Option String
  city : Option String
  country : Option String
  extra : List String
deriving DecidableEq

/-- One Joi chain `Joi.string().min(mn).max(mx)` (with `.required()`
when `req` is true) applied to a possibly-absent field value.
Returns `none` on success, or the first violated rule's message.
(`Joi.string()` also rejects the empty string, which is subsumed
here because every chain in the schema has `min` at least 1.) -/
def joiString (name : String) (mn mx : Nat) (req : Bool) : Option String → Option String
  | none => if req then some (name ++ " is required") else none
  | some s =>
    if s.length < mn then
      some (name ++ " length must be at least " ++ toString mn ++ " characters long")
    else if mx < s.length then
      some (name ++ " length must be less than or equal to " ++ toString mx ++ " characters long")
    else none

/-- `Joi.object` with an explicit key set forbids unknown keys by
default (`allowUnknown` is false and the route sets no validation
options), producing an "is not allowed" error for the first key
outside the schema. -/
def joiUnknown : List String → Option String
  | [] => none
  | k :: _ => some (k ++ " is not allowed")

/-- Joi's `abortEarly` sequencing (a default the route does not
override): the first rule failure wins. -/
def firstErrOf (a b : Option String) : Option String :=
  match a with
  | some e => some e
  | none => b

/-- `userPostRequestSchema` of `routes/users.js`:
`Joi.object({ first_name: Joi.string().min(3).max(64).required(),
last_name: Joi.string().min(3).max(64), city:
Joi.string().min(1).max(64), country:
Joi.string().min(1).max(64).required() })`, evaluated with Joi's
defaults (field rules in declaration order, then the unknown-key
check).  `none` means the payload is valid. -/
def userPostRequestSchema (p : Payload) : Option String :=
  firstErrOf (joiString "first_name" 3 64 true p.first_name)
    (firstErrOf (joiString "last_name" 3 64 false p.last_name)
      (firstErrOf (joiString "city" 1 64 false p.city)
        (firstErrOf (joiString "country" 1 64 true p.country)
          (joiUnknown p.extra))))

/-- Numeric value of the longest leading run of decimal digits of
`cs`, or `none` when `cs` does not start with a digit. -/
def digitPrefix (cs : List Char) : Option Nat :=
  match cs.takeWhile Char.isDigit with
  | [] => none
  | ds => some (ds.foldl (fun a c => 10 * a + (c.toNat - '0'.toNat)) 0)

/-- JavaScript `parseInt(s, 10)`: skip leading whitespace, read an
optional sign, then the value of the longest run of decimal digits,
ignoring the rest of the string.  `none` models `NaN` (no digit
after the optional sign). -/
def parseIntTen (s : String) : Option Int :=
  match s.data.dropWhile (fun c =>
      c == ' ' || c == '\t' || c == '\n' || c == '\r' || c == '\x0b' || c == '\x0c') with
  | '-' :: rest => (digitPrefix rest).map (fun n => -(n : Int))
  | '+' :: rest => (digitPrefix rest).map (fun n => (n : Int))
  | cs => (digitPrefix cs).map (fun n => (n : Int))

/-- `db.get("users").find({ id: n }).value()`: the first record of
the collection whose `id` equals `n`.  (When `parseInt` yields
`NaN` the lodash matcher looks for an id equal to `NaN`, which no
numeric id can be; the handlers below treat that case as the same
not-found outcome.) -/
def Store.findById (s : Store) (n : Int) : Option User :=
  s.users.find? (fun u => (u.id : Int) == n)

/-- Handler of GET /user: returns the whole `users` array.  The
handler performs no write, so the store comes back unchanged. -/
def getUserList (s : Store) : List User × Store :=
  (s.users, s)

/-- Handler of GET /user/{id}: coerces the `id` path segment with
`parseInt(id, 10)` and looks the value up; when no record matches
(including a `NaN` from a non-numeric segment, which matches no
stored numeric id) it throws `Boom.badRequest` with the message
built from the raw segment: `id {id} not found`. -/
def getUserById (s : Store) (idSeg : String) : Except String User × Store :=
  match parseIntTen idSeg with
  | some n =>
    match s.findById n with
    | some u => (Except.ok u, s)
    | none => (Except.error ("id " ++ idSeg ++ " not found"), s)
  | none => (Except.error ("id " ++ idSeg ++ " not found"), s)

/-- Success body of POST /user: `{ message: "user created", id }`. -/
structure PostResponse where
  message : String
  id : Nat
deriving DecidableEq

/-- POST /user: hapi first validates the payload against
`userPostRequestSchema`; a failure reaches the global `failAction`,
which throws `Boom.badRequest(err.message)`.  On success the
handler reads `id := uuid`, increments `uuid`, pushes
`{ id, first_name, last_name, city, country }` onto the collection
and returns `{ message: "user created", id }`. -/
def postUser (s : Store) (p : Payload) : Except String (PostResponse × Store) :=
  match userPostRequestSchema p with
  | some e => Except.error e
  | none =>
    let id := s.uuid
    let newUser : User := ⟨id, p.first_name, p.last_name, p.city, p.country⟩
    Except.ok (⟨"user created", id⟩, { users := s.users ++ [newUser], uuid := s.uuid + 1 })

/-- A sequence of POST /user calls, threading the store; collects
each call's outcome in order. -/
def postSeq (s : Store) : List Payload → List (Except String PostResponse) × Store
  | [] => ([], s)
  | p :: ps =>
    match postUser s p with
    | Except.ok (r, s2) =>
      let t := postSeq s2 ps
      (Except.ok r :: t.1, t.2)
    | Except.error e =>
      let t := postSeq s ps
      (Except.error e :: t.1, t.2)

/-- The ids returned by the successful calls of a sequence of POST
outcomes, in order. -/
def okIds (rs : List (Except String PostResponse)) : List Nat :=
  rs.filterMap (fun r => match r with
    | Except.ok resp => some resp.id
    | Except.error _ => none)

/-- The seed dataset `db/users.json` (14 records, ids 1 to 14). -/
def seed14 : List User :=
  [ ⟨1, some "Guillaume", some "Potapczuk", some "Dopang", some "Indonesia"⟩,
    ⟨2, some "Torre", some "Burnell", some "Shiqiao", some "China"⟩,
    ⟨3, some "Donalt", some "Giannoni", some "General Elizardo Aquino", some "Paraguay"⟩,
    ⟨4, some "Jade", some "Warsap", some "Fuhe", some "China"⟩,
    ⟨5, some "Violet", some "Hinzer", some "Bondo", some "Democratic Republic of the Congo"⟩,
    ⟨6, some "Eleanore", some "Leiden", some "El Porvenir", some "Honduras"⟩,
    ⟨7, some "Andris", some "Bysouth", some "Moss", some "Norway"⟩,
    ⟨8, some "Hilary", some "Speenden", some "Rāmhormoz", some "Iran"⟩,
    ⟨9, some "Albertine", some "Courage", some "Devon", some "Canada"⟩,
    ⟨10, some "Aubert", some "Favill", some "Murfreesboro", some "United States"⟩,
    ⟨11, some "Rik", some "Rushforth", some "Sidokumpul", some "Indonesia"⟩,
    ⟨12, some "Nataline", some "Pickvance", some "Araxá", some "Brazil"⟩,
    ⟨13, some "Irina", some "Trounce", some "Kardzhin", some "Russia"⟩,
    ⟨14, some "Bowie", some "Ranklin", some "Jinhe", some "China"⟩ ]

/-- The payload `{"first_name": "Ada", "country": "UK"}` of the
round-trip scenario. -/
def adaPayload : Payload := ⟨some "Ada", none, none, some "UK", []⟩

/-- Field-level rules as the specification words them: `first_name`
a string of length 3 to 64 and present; `last_name`, if present, of
length 3 to 64; `city`, if present, of length 1 to 64; `country` of
length 1 to 64 and present.  Used to compare the specified rule set
with the behavior of `userPostRequestSchema`. -/
def fieldRulesOk (p : Payload) : Bool :=
  (match p.first_name with
    | some s => 3 ≤ s.length && s.length ≤ 64
    | none => false)
  && (match p.last_name with
    | some s => 3 ≤ s.length && s.length ≤ 64
    | none => true)
  && (match p.city with
    | some s => 1 ≤ s.length && s.length ≤ 64
    | none => true)
  && (match p.country with
    | some s => 1 ≤ s.length && s.length ≤ 64
    | none => false)

/-! ### Helper lemmas -/

theorem postUser_valid (s : Store) (p : Payload)
    (h : userPostRequestSchema p = none) :
    postUser s p = Except.ok (⟨"user created", s.uuid⟩,
      { users := s.users ++ [⟨s.uuid, p.first_name, p.last_name, p.city, p.country⟩],
        uuid := s.uuid + 1 }) := by
  simp [postUser, h]

theorem postUser_ok_inv {s : Store} {p : Payload} {r : PostResponse} {s2 : Store}
    (h : postUser s p = Except.ok (r, s2)) :
    userPostRequestSchema p = none ∧ r = ⟨"user created", s.uuid⟩ ∧
      s2 = { users := s.users ++ [⟨s.uuid, p.first_name, p.last_name, p.city, p.country⟩],
             uuid := s.uuid + 1 } := by
  cases hv : userPostRequestSchema p with
  | some e => simp [postUser, hv] at h
  | none =>
    rw [postUser_valid s p hv] at h
    obtain ⟨h1, h2⟩ := Prod.mk.injEq .. ▸ (Except.ok.injEq .. ▸ h)
    exact ⟨rfl, h1.symm, h2.symm⟩

theorem getUserById_snd (s : Store) (idSeg : String) :
    (getUserById s idSeg).2 = s := by
  unfold getUserById
  split
  · split <;> rfl
  · rfl

theorem find?_append_of_forall_false {l1 l2 : List User} {q : User → Bool}
    (h : ∀ u ∈ l1, q u = false) :
    (l1 ++ l2).find? q = l2.find? q := by
  induction l1 with
  | nil => simp
  | cons a l ih =>
    have ha : q a = false := h a (by simp)
    simp only [List.cons_append, List.find?_cons, ha]
    exact ih (fun u hu => h u (by simp [hu]))

theorem postSeq_valid_ids (ps : List Payload) : ∀ s : Store,
    (∀ p ∈ ps, userPostRequestSchema p = none) →
    (postSeq s ps).1 = (List.range' s.uuid ps.length).map
      (fun k => Except.ok (PostResponse.mk "user created" k)) ∧
    (postSeq s ps).2.uuid = s.uuid + ps.length := by
  induction ps with
  | nil => intro s _; simp [postSeq]
  | cons p ps ih =>
    intro s h
    have hp : userPostRequestSchema p = none := h p (by simp)
    have hrest : ∀ q ∈ ps, userPostRequestSchema q = none := fun q hq => h q (by simp [hq])
    have hpost := postUser_valid s p hp
    obtain ⟨ih1, ih2⟩ := ih { users := s.users ++
      [⟨s.uuid, p.first_name, p.last_name, p.city, p.country⟩], uuid := s.uuid + 1 } hrest
    constructor
    · simp only [postSeq, hpost, ih1, List.length_cons, List.range'_succ, List.map_cons]
    · simp only [postSeq, hpost, ih2, List.length_cons]
      omega

theorem okIds_map_ok (l : List Nat) :
    okIds (l.map (fun k => Except.ok (PostResponse.mk "user created" k))) = l := by
  induction l with
  | nil => rfl
  | cons a l ih =>
    simp only [List.map_cons, okIds, List.filterMap_cons] at ih ⊢
    rw [ih]

/-! ### Claims -/

/-- C1: on a store seeded with S records, every sequence of N
successful creates returns the ids S+1, ..., S+N in order: they are
pairwise distinct, the k-th created record (1-based) receives id
S + k, the counter starts at S + 1, and each successful create
increments the counter by exactly one. -/
theorem created_ids_distinct_and_sequential (seed : List User) (ps : List Payload)
    (hval : ∀ p ∈ ps, userPostRequestSchema p = none) :
    okIds (postSeq (seedStore seed) ps).1 = List.range' (seed.length + 1) ps.length ∧
    (okIds (postSeq (seedStore seed) ps).1).Nodup ∧
    (∀ k, 1 ≤ k → k ≤ ps.length →
      (okIds (postSeq (seedStore seed) ps).1)[k - 1]? = some (seed.length + k)) ∧
    (seedStore seed).uuid = seed.length + 1 ∧
    (∀ (s : Store) (p : Payload) (r : PostResponse) (s2 : Store),
      postUser s p = Except.ok (r, s2) → s2.uuid = s.uuid + 1) := by
  obtain ⟨h1, -⟩ := postSeq_valid_ids ps (seedStore seed) hval
  have hids : okIds (postSeq (seedStore seed) ps).1
      = List.range' (seed.length + 1) ps.length := by
    rw [h1, okIds_map_ok]
    rfl
  refine ⟨hids, ?_, ?_, rfl, ?_⟩
  · rw [hids]; exact List.nodup_range' _ _
  · intro k hk1 hk2
    rw [hids, List.getElem?_range' _ _ (by omega)]
    simp only [Option.some.injEq]
    omega
  · intro s p r s2 h
    obtain ⟨-, -, h3⟩ := postUser_ok_inv h
    rw [h3]

/-- Witness for C1 at the 14-record seed and two valid payloads. -/
theorem created_ids_distinct_and_sequential_witness :
    (∀ p ∈ [adaPayload, adaPayload], userPostRequestSchema p = none) ∧
    okIds (postSeq (seedStore seed14) [adaPayload, adaPayload]).1 = [15, 16] :=
  ⟨by decide,
   (created_ids_distinct_and_sequential seed14 [adaPayload, adaPayload] (by decide)).1⟩

/-- C4: when the decimal-coerced value of the id segment matches no
record, GET /user/{id} answers the 400-class error "id {id} not
found" naming the requested id, and the store is unchanged. -/
theorem missing_id_bad_request (s : Store) (idSeg : String) (n : Int)
    (hparse : parseIntTen idSeg = some n) (hfind : s.findById n = none) :
    getUserById s idSeg = (Except.error ("id " ++ idSeg ++ " not found"), s) := by
  simp [getUserById, hparse, hfind]

/-- Witness for C4: GET /user/999 on the seeded store. -/
theorem missing_id_bad_request_witness :
    parseIntTen "999" = some 999 ∧ (seedStore seed14).findById 999 = none ∧
    getUserById (seedStore seed14) "999" = (Except.error "id 999 not found", seedStore seed14) :=
  ⟨by decide, by decide,
   missing_id_bad_request (seedStore seed14) "999" 999 (by decide) (by decide)⟩

/-- C5: a non-numeric id segment (one `parseInt` cannot coerce) does
not crash the get-by-id handler: it yields the same 400-class
not-found error. -/
theorem nonnumeric_id_not_found (s : Store) (idSeg : String)
    (hparse : parseIntTen idSeg = none) :
    getUserById s idSeg = (Except.error ("id " ++ idSeg ++ " not found"), s) := by
  simp [getUserById, hparse]

/-- Witness for C5: GET /user/abc on the seeded store. -/
theorem nonnumeric_id_not_found_witness :
    parseIntTen "abc" = none ∧
    getUserById (seedStore seed14) "abc" = (Except.error "id abc not found", seedStore seed14) :=
  ⟨by decide, nonnumeric_id_not_found (seedStore seed14) "abc" (by decide)⟩

/-- C7: every payload accepted by the schema makes POST /user
succeed: exactly one record is appended at the end of the
collection (pre-existing records untouched), the counter advances
by one, and the response is the message "user created" with the new
id. -/
theorem valid_create_succeeds (s : Store) (p : Payload)
    (hv : userPostRequestSchema p = none) :
    postUser s p = Except.ok (⟨"user created", s.uuid⟩,
      { users := s.users ++ [⟨s.uuid, p.first_name, p.last_name, p.city, p.country⟩],
        uuid := s.uuid + 1 }) :=
  postUser_valid s p hv

/-- Witness for C7 at the 14-record seed and the Ada payload. -/
theorem valid_create_succeeds_witness :
    userPostRequestSchema adaPayload = none ∧
    postUser (seedStore seed14) adaPayload = Except.ok (⟨"user created", 15⟩,
      { users := seed14 ++ [⟨15, some "Ada", none, none, some "UK"⟩], uuid := 16 }) :=
  ⟨by decide, valid_create_succeeds (seedStore seed14) adaPayload (by decide)⟩

/-- C8: GET /user always succeeds, returns every record with no
filtering in insertion order (seed order, then creation order) and
does not modify the store; a create appends its record at the end
of what list returns. -/
theorem list_returns_all_in_order :
    (∀ s : Store, getUserList s = (s.users, s)) ∧
    (∀ seed : List User, (getUserList (seedStore seed)).1 = seed) ∧
    (∀ (s : Store) (p : Payload) (r : PostResponse) (s2 : Store),
      postUser s p = Except.ok (r, s2) →
      (getUserList s2).1 = (getUserList s).1 ++
        [⟨s.uuid, p.first_name, p.last_name, p.city, p.country⟩]) := by
  refine ⟨fun s => rfl, fun seed => rfl, ?_⟩
  intro s p r s2 h
  obtain ⟨-, -, h3⟩ := postUser_ok_inv h
  rw [h3]
  rfl

/-- Witness for C8: listing after creating Ada on the seeded store. -/
theorem list_returns_all_in_order_witness :
    postUser (seedStore seed14) adaPayload = Except.ok (⟨"user created", 15⟩,
      { users := seed14 ++ [⟨15, some "Ada", none, none, some "UK"⟩], uuid := 16 }) ∧
    (getUserList { users := seed14 ++ [⟨15, some "Ada", none, none, some "UK"⟩],
                   uuid := 16 }).1
      = (getUserList (seedStore seed14)).1 ++ [⟨15, some "Ada", none, none, some "UK"⟩] :=
  ⟨by rfl,
   list_returns_all_in_order.2.2 (seedStore seed14) adaPayload ⟨"user created", 15⟩
     { users := seed14 ++ [⟨15, some "Ada", none, none, some "UK"⟩], uuid := 16 } (by rfl)⟩

/-- C9: repeated list or get-by-id calls with no intervening create
return identical results (reads are idempotent and deterministic). -/
theorem reads_idempotent (s : Store) (idSeg : String) :
    (getUserList (getUserList s).2).1 = (getUserList s).1 ∧
    (getUserById (getUserById s idSeg).2 idSeg).1 = (getUserById s idSeg).1 := by
  refine ⟨rfl, ?_⟩
  rw [getUserById_snd]

/-- C10: the id segment is coerced with base-10 `parseInt`, which
accepts any segment with a leading digit prefix ("5abc" and "5.9"
both coerce to 5); whenever the coerced value is the id of a stored
record, the handler returns that record, not a not-found error. -/
theorem parseint_prefix_lookup :
    parseIntTen "5abc" = some 5 ∧ parseIntTen "5.9" = some 5 ∧
    (∀ (s : Store) (idSeg : String) (n : Int) (u : User),
      parseIntTen idSeg = some n → s.findById n = some u →
      getUserById s idSeg = (Except.ok u, s)) := by
  refine ⟨by decide, by decide, ?_⟩
  intro s idSeg n u hp hf
  simp [getUserById, hp, hf]

/-- Witness for C10: GET /user/5abc on the seeded store returns the
record with id 5. -/
theorem parseint_prefix_lookup_witness :
    parseIntTen "5abc" = some 5 ∧
    (seedStore seed14).findById 5 = some ⟨5, some "Violet", some "Hinzer", some "Bondo",
      some "Democratic Republic of the Congo"⟩ ∧
    getUserById (seedStore seed14) "5abc" = (Except.ok ⟨5, some "Violet", some "Hinzer",
      some "Bondo", some "Democratic Republic of the Congo"⟩, seedStore seed14) :=
  ⟨by decide, by decide,
   parseint_prefix_lookup.2.2 (seedStore seed14) "5abc" 5
     ⟨5, some "Violet", some "Hinzer", some "Bondo",
      some "Democratic Republic of the Congo"⟩ (by decide) (by decide)⟩

theorem firstErrOf_eq_none {a b : Option String} :
    firstErrOf a b = none ↔ a = none ∧ b = none := by
  cases a <;> simp [firstErrOf]

theorem joiString_eq_none (name : String) (mn mx : Nat) (req : Bool) (v : Option String) :
    joiString name mn mx req v = none ↔
      (match v with
        | none => req = false
        | some s => mn ≤ s.length ∧ s.length ≤ mx) := by
  cases v with
  | none => cases req <;> simp [joiString]
  | some s =>
    simp only [joiString]
    split_ifs <;> simp <;> omega

theorem joiUnknown_eq_none (ex : List String) : joiUnknown ex = none ↔ ex = [] := by
  cases ex <;> simp [joiUnknown]

theorem schema_eq_none_iff (p : Payload) :
    userPostRequestSchema p = none ↔
      joiString "first_name" 3 64 true p.first_name = none ∧
      joiString "last_name" 3 64 false p.last_name = none ∧
      joiString "city" 1 64 false p.city = none ∧
      joiString "country" 1 64 true p.country = none ∧
      p.extra = [] := by
  unfold userPostRequestSchema
  simp only [firstErrOf_eq_none, joiUnknown_eq_none, and_assoc]

/-- C2 counterexample: a payload whose four known fields all satisfy
their rules but which carries the extra key "foo" is rejected by the
validator, refuting the claim that unknown fields are ignored. -/
theorem extra_field_rejected_cex :
    ¬ (userPostRequestSchema ⟨some "Ada", none, none, some "UK", ["foo"]⟩ = none) := by
  decide

/-- C2 (amended): the validator accepts a payload exactly when the
four known fields satisfy their rules AND no key outside the set
{first_name, last_name, city, country} is present; an unknown key
makes validation fail (Joi's default forbids unknown keys). -/
theorem schema_accepts_iff_rules_and_no_unknown (p : Payload) :
    userPostRequestSchema p = none ↔ (fieldRulesOk p = true ∧ p.extra = []) := by
  rw [schema_eq_none_iff]
  unfold fieldRulesOk
  simp only [joiString_eq_none]
  cases p.first_name <;> cases p.last_name <;> cases p.city <;> cases p.country <;>
    simp <;> tauto

/-- C3: a record returned by a successful create is retrievable
unchanged via find-by-id with the returned id (given the store
invariant that every stored id is below the counter); concretely,
on the 14-record seed, POSTing {first_name: "Ada", country: "UK"}
answers {message: "user created", id: 15} and GET /user/15 then
returns exactly {id: 15, first_name: "Ada", country: "UK"} with no
last_name or city field. -/
theorem create_find_roundtrip (s : Store) (p : Payload) (r : PostResponse) (s2 : Store)
    (hinv : ∀ u ∈ s.users, u.id < s.uuid)
    (hpost : postUser s p = Except.ok (r, s2)) :
    s2.findById (r.id : Int)
      = some ⟨r.id, p.first_name, p.last_name, p.city, p.country⟩ ∧
    (postUser (seedStore seed14) adaPayload).map
      (fun x => (x.1, (getUserById x.2 "15").1))
      = Except.ok (⟨"user created", 15⟩,
          Except.ok ⟨15, some "Ada", none, none, some "UK"⟩) := by
  obtain ⟨hv, hr, hs2⟩ := postUser_ok_inv hpost
  subst hr hs2
  refine ⟨?_, rfl⟩
  unfold Store.findById
  rw [find?_append_of_forall_false (fun u hu => ?_)]
  · simp [List.find?]
  · have := hinv u hu
    simp only [beq_eq_false_iff_ne, ne_eq, Int.natCast_inj]
    omega

/-- Witness for C3 at the 14-record seed and the Ada payload. -/
theorem create_find_roundtrip_witness :
    (∀ u ∈ (seedStore seed14).users, u.id < (seedStore seed14).uuid) ∧
    postUser (seedStore seed14) adaPayload = Except.ok (⟨"user created", 15⟩,
      { users := seed14 ++ [⟨15, some "Ada", none, none, some "UK"⟩], uuid := 16 }) ∧
    Store.findById { users := seed14 ++ [⟨15, some "Ada", none, none, some "UK"⟩],
                     uuid := 16 } 15
      = some ⟨15, some "Ada", none, none, some "UK"⟩ :=
  ⟨by decide, by rfl,
   (create_find_roundtrip (seedStore seed14) adaPayload ⟨"user created", 15⟩
     { users := seed14 ++ [⟨15, some "Ada", none, none, some "UK"⟩], uuid := 16 }
     (by decide) (by rfl)).1⟩

/-- C6: the validator accepts first_name of length 3 and of length
64, rejects length 2 and length 65 (other fields valid), rejects
every payload in which country is omitted, and tolerates omission
of last_name and city. -/
theorem validation_boundary :
    (∀ p : Payload, p.country = none → userPostRequestSchema p ≠ none) ∧
    userPostRequestSchema ⟨some "Abc", none, none, some "UK", []⟩ = none ∧
    userPostRequestSchema
      ⟨some (String.mk (List.replicate 64 'a')), none, none, some "UK", []⟩ = none ∧
    userPostRequestSchema ⟨some "Ab", none, none, some "UK", []⟩ ≠ none ∧
    userPostRequestSchema
      ⟨some (String.mk (List.replicate 65 'a')), none, none, some "UK", []⟩ ≠ none := by
  refine ⟨?_, by decide, by decide, by decide, by decide⟩
  intro p hc h
  rw [schema_eq_none_iff] at h
  obtain ⟨-, -, -, hco, -⟩ := h
  rw [hc] at hco
  simp [joiString] at hco

/-- Witness for C6: a payload omitting country is rejected. -/
theorem validation_boundary_witness :
    (⟨some "Ada", none, none, none, []⟩ : Payload).country = none ∧
    userPostRequestSchema ⟨some "Ada", none, none, none, []⟩ ≠ none :=
  ⟨rfl, validation_boundary.1 ⟨some "Ada", none, none, none, []⟩ rfl⟩
